import Mathlib

/-!
Verification of the hyprshutdown lifecycle orchestrator (src/src/main.cpp).

The program is embedded shallowly:

* the process environment is a partial map `Env := String → Option String`
  (`getenv` returns `none` for an absent variable, `some ""` for one set to the
  empty string);
* `captureEnvVars` / `restoreEnvVars` are translated directly from the source;
* the side-effecting control flow of `forkoff` and `main` is modelled as a
  trace semantics: each process image that exists during a run is an `Image`
  holding the ordered list of events it performed and its outcome (exited with
  a code, or continues past the modelled region).  Fork outcomes, `setsid`
  success and state-initialization success are explicit boolean parameters,
  since the model must cover every combination of system-call results.
-/

namespace Hyprshutdown

/-- The process environment: a partial map from variable names to values.
`none` means the variable is absent; `some ""` means set to the empty string. -/
def Env : Type := String → Option String

/-- `setenv name value 1`: overwrite semantics. -/
def setenvF (nm v : String) (e : Env) : Env :=
  fun k => if k = nm then some v else e k

/-- `unsetenv name` (used only to state capture indistinguishability). -/
def unsetF (nm : String) (e : Env) : Env :=
  fun k => if k = nm then none else e k

/-- struct SEnvVars (main.cpp lines 18-22): the three tracked variables,
default-initialized to the empty string as in C++. -/
structure SEnvVars where
  hyprlandInstanceSignature : String
  xdgRuntimeDir : String
  waylandDisplay : String
deriving DecidableEq, Repr

/-- captureEnvVars (main.cpp lines 24-36): each field keeps its default empty
value unless getenv returns non-null. -/
def captureEnvVars (e : Env) : SEnvVars where
  hyprlandInstanceSignature :=
    match e "HYPRLAND_INSTANCE_SIGNATURE" with
    | some v => v
    | none => ""
  xdgRuntimeDir :=
    match e "XDG_RUNTIME_DIR" with
    | some v => v
    | none => ""
  waylandDisplay :=
    match e "WAYLAND_DISPLAY" with
    | some v => v
    | none => ""

/-- main.cpp lines 39-40: set HYPRLAND_INSTANCE_SIGNATURE when the field is
non-empty. -/
def restoreHIS (s : SEnvVars) (e : Env) : Env :=
  if s.hyprlandInstanceSignature = "" then e
  else setenvF "HYPRLAND_INSTANCE_SIGNATURE" s.hyprlandInstanceSignature e

/-- main.cpp lines 41-42: set XDG_RUNTIME_DIR when the field is non-empty. -/
def restoreXDG (s : SEnvVars) (e : Env) : Env :=
  if s.xdgRuntimeDir = "" then e
  else setenvF "XDG_RUNTIME_DIR" s.xdgRuntimeDir e

/-- main.cpp lines 43-44: set WAYLAND_DISPLAY when the field is non-empty. -/
def restoreWD (s : SEnvVars) (e : Env) : Env :=
  if s.waylandDisplay = "" then e
  else setenvF "WAYLAND_DISPLAY" s.waylandDisplay e

/-- restoreEnvVars (main.cpp lines 38-45): the three conditional setenv calls,
in source order. -/
def restoreEnvVars (s : SEnvVars) (e : Env) : Env :=
  restoreWD s (restoreXDG s (restoreHIS s e))

/-- The three variable names tracked by the Environment Snapshot. -/
def trackedNames : List String :=
  ["HYPRLAND_INSTANCE_SIGNATURE", "XDG_RUNTIME_DIR", "WAYLAND_DISPLAY"]

/-- Side effects a process image can perform, in the order the source performs
them.  `waitChild` is the wait/inspect operation on a spawned subprocess; the
program never performs it (the VT switch is launched with runAsync and never
waited on), which the no-wait claims state as absence of this event. -/
inductive Ev where
  | setVerbose
  | markDryRun
  | captureEnv (s : SEnvVars)
  | logError
  | printHelp
  | forkCall
  | restoreEnv (s : SEnvVars)
  | setsidCall
  | sighupIgnore
  | umaskZero
  | stateInit
  | configureUI (noExit : Bool) (label : String) (postCmd : Option String)
  | runUI
  | launchAsync (file : String) (args : List String)
  | waitChild
deriving DecidableEq, Repr

/-- How a process image leaves the modelled region. -/
inductive Outcome where
  | exited (code : Nat)
  | continues
deriving DecidableEq, Repr

/-- One process image of a run: the events it performed, in order, and its
outcome. -/
structure Image where
  trace : List Ev
  outcome : Outcome
deriving DecidableEq, Repr

/-- forkoff (main.cpp lines 48-73) as the list of process images it produces,
given whether each fork and the setsid call succeed.  EXIT_SUCCESS = 0,
EXIT_FAILURE = 1.  A fork call is an event of both resulting images (it
happened before the split); the parent of each successful fork exits 0 at
once, the child continues down the function body. -/
def forkoffImages (s : SEnvVars) (fork1Ok setsidOk fork2Ok : Bool) : List Image :=
  if fork1Ok then
    let parent1 : Image := ⟨[Ev.forkCall], Outcome.exited 0⟩
    let t1 : List Ev := [Ev.forkCall, Ev.restoreEnv s, Ev.setsidCall]
    if setsidOk then
      let t2 : List Ev := t1 ++ [Ev.sighupIgnore, Ev.forkCall]
      if fork2Ok then
        [parent1, ⟨t2, Outcome.exited 0⟩,
         ⟨t2 ++ [Ev.restoreEnv s, Ev.umaskZero], Outcome.continues⟩]
      else
        [parent1, ⟨t2, Outcome.exited 1⟩]
    else
      [parent1, ⟨t1, Outcome.exited 1⟩]
  else
    [⟨[Ev.forkCall], Outcome.exited 1⟩]

/-- The CLI options main registers and reads (main.cpp lines 78-85), already
resolved by the external argument parser. -/
structure ParsedArgs where
  help : Bool
  verbose : Bool
  dryRun : Bool
  noExit : Bool
  noFork : Bool
  topLabel : Option String
  postCmd : Option String
  vt : Option Int
deriving DecidableEq, Repr

/-- The two fields of the shared state the orchestrator touches. -/
structure AppState where
  m_dryRun : Bool
deriving DecidableEq, Repr

/-- The precondition check of main.cpp line 108: getenv returned null or the
string is empty. -/
def hisBad (e : Env) : Bool :=
  match e "HYPRLAND_INSTANCE_SIGNATURE" with
  | none => true
  | some v => v == ""

/-- Events of main.cpp lines 97-105, between the help check and the signature
check: verbose handling, the dry-run mark, the environment capture. -/
def preTrace (a : ParsedArgs) (e : Env) : List Ev :=
  (if a.verbose then [Ev.setVerbose] else []) ++
  (if a.dryRun then [Ev.markDryRun] else []) ++
  [Ev.captureEnv (captureEnvVars e)]

/-- The command string built at main.cpp line 142. -/
def vtCommand (n : Int) : String := "sudo -n chvt " ++ toString n

/-- main.cpp lines 122-147, the part after the fork decision, executed by the
one image that survives it: state init (fatal on failure), UI configuration,
the blocking UI run, the conditional asynchronous VT switch, return 0.
`t` is the trace accumulated so far. -/
def afterFork (t : List Ev) (a : ParsedArgs) (st : AppState) (initOk : Bool) : Image :=
  let t1 := t ++ [Ev.stateInit]
  if initOk then
    let noExit := a.noExit || st.m_dryRun
    let label := a.topLabel.getD "Shutting down..."
    let t2 := t1 ++ [Ev.configureUI noExit label a.postCmd, Ev.runUI]
    match a.vt with
    | some n =>
      if 0 < n ∧ st.m_dryRun = false then
        ⟨t2 ++ [Ev.launchAsync "/bin/sh" ["-c", vtCommand n]], Outcome.exited 0⟩
      else ⟨t2, Outcome.exited 0⟩
    | none => ⟨t2, Outcome.exited 0⟩
  else ⟨t1 ++ [Ev.logError], Outcome.exited 1⟩

/-- main (main.cpp lines 75-148) as the list of process images a run produces.
`parseRes` is `none` when argument parsing fails; the booleans are the
outcomes of the two forks, setsid, and State::init. -/
def mainRun (parseRes : Option ParsedArgs) (e : Env)
    (fork1Ok setsidOk fork2Ok initOk : Bool) : List Image :=
  match parseRes with
  | none => [⟨[Ev.logError], Outcome.exited 1⟩]
  | some a =>
    if a.help then [⟨[Ev.printHelp], Outcome.exited 0⟩]
    else
      let st : AppState := if a.dryRun then ⟨true⟩ else ⟨false⟩
      let pre := preTrace a e
      if hisBad e then [⟨pre ++ [Ev.logError], Outcome.exited 1⟩]
      else if a.noFork then
        [afterFork (pre ++ [Ev.sighupIgnore]) a st initOk]
      else
        (forkoffImages (captureEnvVars e) fork1Ok setsidOk fork2Ok).map fun i =>
          match i.outcome with
          | Outcome.exited c => ⟨pre ++ i.trace, Outcome.exited c⟩
          | Outcome.continues => afterFork (pre ++ i.trace) a st initOk

/-- Whether an event is a subprocess launch. -/
def isLaunch : Ev → Bool
  | Ev.launchAsync _ _ => true
  | _ => false

/-- Total number of subprocess launches across all images of a run. -/
def launchCount (l : List Image) : Nat :=
  (l.map fun i => (i.trace.filter isLaunch).length).sum

/-- Whether an image continues past the modelled region. -/
def Outcome.isCont : Outcome → Bool
  | Outcome.continues => true
  | _ => false

/-- Number of images that continue past the modelled region. -/
def continueCount (l : List Image) : Nat :=
  (l.filter fun i => i.outcome.isCont).length

/-- The last image of a run (the one that ran longest). -/
def lastImg (l : List Image) : Image :=
  l.getLastD ⟨[], Outcome.exited 255⟩

/-- A concrete environment with all three tracked variables absent. -/
def envAllUnset : Env := fun _ => none

/-- A concrete target environment holding values for the three tracked
variables. -/
def envTargetABC : Env := fun k =>
  if k = "HYPRLAND_INSTANCE_SIGNATURE" then some "a"
  else if k = "XDG_RUNTIME_DIR" then some "b"
  else if k = "WAYLAND_DISPLAY" then some "c"
  else none

/-- A concrete environment with a valid compositor signature. -/
def envWithSig : Env := fun k =>
  if k = "HYPRLAND_INSTANCE_SIGNATURE" then some "sig" else none

/-- A concrete environment with non-empty values for all three tracked
variables. -/
def envSrcFull : Env := fun k =>
  if k = "HYPRLAND_INSTANCE_SIGNATURE" then some "sig"
  else if k = "XDG_RUNTIME_DIR" then some "run"
  else if k = "WAYLAND_DISPLAY" then some "disp"
  else none

/-- A concrete argument record: defaults, no flag set, no VT. -/
def argsDefault : ParsedArgs :=
  ⟨false, false, false, false, false, none, none, none⟩

/-- Claim C9: Restore is idempotent: applying Restore twice with the same
snapshot yields exactly the same environment as applying it once. -/
theorem restore_idempotent (s : SEnvVars) (e : Env) :
    restoreEnvVars s (restoreEnvVars s e) = restoreEnvVars s e := by
  funext k
  simp only [restoreEnvVars, restoreHIS, restoreXDG, restoreWD, setenvF]
  split_ifs <;> simp_all [setenvF]

/-- Claim C2: with every system call succeeding, the Daemonization Protocol is
exactly: fork with parent exiting 0; restore in the child; setsid (whose
failure is fatal with exit 1); SIGHUP ignored; fork with the session leader
exiting 0; a second restore; umask reset — and exactly one image (the
grandchild) continues. -/
theorem forkoff_protocol (s : SEnvVars) :
    forkoffImages s true true true =
      [⟨[Ev.forkCall], Outcome.exited 0⟩,
       ⟨[Ev.forkCall, Ev.restoreEnv s, Ev.setsidCall, Ev.sighupIgnore, Ev.forkCall],
        Outcome.exited 0⟩,
       ⟨[Ev.forkCall, Ev.restoreEnv s, Ev.setsidCall, Ev.sighupIgnore, Ev.forkCall,
         Ev.restoreEnv s, Ev.umaskZero], Outcome.continues⟩] ∧
    continueCount (forkoffImages s true true true) = 1 ∧
    forkoffImages s true false true =
      [⟨[Ev.forkCall], Outcome.exited 0⟩,
       ⟨[Ev.forkCall, Ev.restoreEnv s, Ev.setsidCall], Outcome.exited 1⟩] :=
  ⟨rfl, rfl, rfl⟩

/-- Claim C10: Capture cannot distinguish a tracked variable that is absent
from one set to the empty string (both record an empty field), and Restore
skips an empty field, leaving the target's pre-existing value for that
variable unchanged. -/
theorem capture_empty_restore_skips (s : SEnvVars) (tgt e : Env) :
    captureEnvVars (setenvF "HYPRLAND_INSTANCE_SIGNATURE" "" e)
      = captureEnvVars (unsetF "HYPRLAND_INSTANCE_SIGNATURE" e) ∧
    captureEnvVars (setenvF "XDG_RUNTIME_DIR" "" e)
      = captureEnvVars (unsetF "XDG_RUNTIME_DIR" e) ∧
    captureEnvVars (setenvF "WAYLAND_DISPLAY" "" e)
      = captureEnvVars (unsetF "WAYLAND_DISPLAY" e) ∧
    (s.hyprlandInstanceSignature = "" →
      restoreEnvVars s tgt "HYPRLAND_INSTANCE_SIGNATURE"
        = tgt "HYPRLAND_INSTANCE_SIGNATURE") ∧
    (s.xdgRuntimeDir = "" →
      restoreEnvVars s tgt "XDG_RUNTIME_DIR" = tgt "XDG_RUNTIME_DIR") ∧
    (s.waylandDisplay = "" →
      restoreEnvVars s tgt "WAYLAND_DISPLAY" = tgt "WAYLAND_DISPLAY") := by
  refine ⟨?_, ?_, ?_, ?_, ?_, ?_⟩
  · simp [captureEnvVars, setenvF, unsetF]
  · simp [captureEnvVars, setenvF, unsetF]
  · simp [captureEnvVars, setenvF, unsetF]
  · intro h
    simp only [restoreEnvVars, restoreHIS, restoreXDG, restoreWD, setenvF, h]
    split_ifs <;> simp_all [setenvF]
  · intro h
    simp only [restoreEnvVars, restoreHIS, restoreXDG, restoreWD, setenvF, h]
    split_ifs <;> simp_all [setenvF]
  · intro h
    simp only [restoreEnvVars, restoreHIS, restoreXDG, restoreWD, setenvF, h]
    split_ifs <;> simp_all [setenvF]

/-- Witness for C10 at a concrete snapshot and target: a snapshot with an
empty signature field leaves the target's value "a" in place. -/
theorem capture_empty_restore_skips_witness :
    restoreEnvVars ⟨"", "b2", "c2"⟩ envTargetABC "HYPRLAND_INSTANCE_SIGNATURE"
      = envTargetABC "HYPRLAND_INSTANCE_SIGNATURE" :=
  (capture_empty_restore_skips ⟨"", "b2", "c2"⟩ envTargetABC envAllUnset).2.2.2.1 rfl

/-- Counterexample to claim C4 as stated: capturing from an environment where
the three tracked variables are absent and restoring into a target that holds
different values leaves the target's old value (some "a") for the signature
variable, which is neither the source's value (none) nor the captured empty
field. -/
theorem capture_restore_overwrite_counterexample :
    restoreEnvVars (captureEnvVars envAllUnset) envTargetABC
        "HYPRLAND_INSTANCE_SIGNATURE" = some "a" ∧
    (captureEnvVars envAllUnset).hyprlandInstanceSignature = "" ∧
    envAllUnset "HYPRLAND_INSTANCE_SIGNATURE" = none ∧
    ¬ (restoreEnvVars (captureEnvVars envAllUnset) envTargetABC
        "HYPRLAND_INSTANCE_SIGNATURE" = envAllUnset "HYPRLAND_INSTANCE_SIGNATURE") := by
  refine ⟨rfl, rfl, rfl, ?_⟩
  intro h
  simp [restoreEnvVars, restoreHIS, restoreXDG, restoreWD, setenvF,
    captureEnvVars, envAllUnset, envTargetABC] at h

/-- Claim C4 (amended): when each tracked variable is present with a non-empty
value in the starting environment, Capture then Restore into any target leaves
the target holding exactly the captured values for the three tracked
variables and every other variable unchanged. -/
theorem capture_restore_overwrite (src tgt : Env)
    (h1 : ∃ v, src "HYPRLAND_INSTANCE_SIGNATURE" = some v ∧ v ≠ "")
    (h2 : ∃ v, src "XDG_RUNTIME_DIR" = some v ∧ v ≠ "")
    (h3 : ∃ v, src "WAYLAND_DISPLAY" = some v ∧ v ≠ "") :
    (∀ nm ∈ trackedNames,
      restoreEnvVars (captureEnvVars src) tgt nm = src nm) ∧
    (∀ k, k ∉ trackedNames →
      restoreEnvVars (captureEnvVars src) tgt k = tgt k) := by
  obtain ⟨v1, hv1, hne1⟩ := h1
  obtain ⟨v2, hv2, hne2⟩ := h2
  obtain ⟨v3, hv3, hne3⟩ := h3
  have hc : captureEnvVars src = ⟨v1, v2, v3⟩ := by
    simp [captureEnvVars, hv1, hv2, hv3]
  rw [hc]
  constructor
  · intro nm hnm
    simp only [trackedNames, List.mem_cons, List.mem_singleton,
      List.not_mem_nil, or_false] at hnm
    rcases hnm with h | h | h <;> subst h <;>
      simp [restoreEnvVars, restoreHIS, restoreXDG, restoreWD, setenvF,
        hne1, hne2, hne3, hv1, hv2, hv3]
  · intro k hk
    simp only [trackedNames, List.mem_cons, List.mem_singleton,
      List.not_mem_nil, or_false, not_or] at hk
    obtain ⟨hk1, hk2, hk3⟩ := hk
    simp [restoreEnvVars, restoreHIS, restoreXDG, restoreWD, setenvF,
      hne1, hne2, hne3, hk1, hk2, hk3]

/-- Witness for the amended C4 at concrete environments: capturing
sig/run/disp and restoring into the a/b/c target overwrites the signature
variable with the captured value. -/
theorem capture_restore_overwrite_witness :
    restoreEnvVars (captureEnvVars envSrcFull) envTargetABC
      "HYPRLAND_INSTANCE_SIGNATURE" = envSrcFull "HYPRLAND_INSTANCE_SIGNATURE" :=
  (capture_restore_overwrite envSrcFull envTargetABC
      ⟨"sig", rfl, by decide⟩ ⟨"run", rfl, by decide⟩ ⟨"disp", rfl, by decide⟩).1
    "HYPRLAND_INSTANCE_SIGNATURE" (by simp [trackedNames])

/-- Claim C7: with parsing succeeded and the help flag set, main prints the
usage text and exits 0 having performed no environment capture, no fork, no
signal-disposition change, no dry-run mark and no state initialization. -/
theorem help_exits_clean (a : ParsedArgs) (e : Env) (f1 ss f2 i0 : Bool)
    (hh : a.help = true) :
    mainRun (some a) e f1 ss f2 i0 = [⟨[Ev.printHelp], Outcome.exited 0⟩] ∧
    ∀ i ∈ mainRun (some a) e f1 ss f2 i0,
      i.outcome = Outcome.exited 0 ∧ Ev.printHelp ∈ i.trace ∧
      (∀ s, Ev.captureEnv s ∉ i.trace) ∧ Ev.forkCall ∉ i.trace ∧
      Ev.sighupIgnore ∉ i.trace ∧ Ev.markDryRun ∉ i.trace ∧
      Ev.stateInit ∉ i.trace := by
  have h : mainRun (some a) e f1 ss f2 i0 = [⟨[Ev.printHelp], Outcome.exited 0⟩] := by
    simp [mainRun, hh]
  refine ⟨h, ?_⟩
  rw [h]
  intro i hi
  simp only [List.mem_singleton] at hi
  subst hi
  simp

/-- Witness for C7 at a concrete invocation with --help set. -/
theorem help_exits_clean_witness :
    mainRun (some { argsDefault with help := true }) envWithSig true true true true
      = [⟨[Ev.printHelp], Outcome.exited 0⟩] :=
  (help_exits_clean { argsDefault with help := true } envWithSig true true true true
    rfl).1

/-- Claim C1: with the signature variable unset or empty (help not given,
parsing succeeded), main exits 1 having performed no fork, no
signal-disposition change and no shared-state initialization, for every
combination of the remaining flags and system-call outcomes. -/
theorem missing_sig_exits_early (a : ParsedArgs) (e : Env) (f1 ss f2 i0 : Bool)
    (hh : a.help = false) (hm : hisBad e = true) :
    mainRun (some a) e f1 ss f2 i0
      = [⟨preTrace a e ++ [Ev.logError], Outcome.exited 1⟩] ∧
    Ev.forkCall ∉ preTrace a e ∧ Ev.sighupIgnore ∉ preTrace a e ∧
    Ev.stateInit ∉ preTrace a e := by
  refine ⟨by simp [mainRun, hh, hm], ?_, ?_, ?_⟩ <;>
    cases hv : a.verbose <;> cases hd : a.dryRun <;> simp [preTrace, hv, hd]

/-- Witness for C1: no signature in the environment, all other inputs
concrete. -/
theorem missing_sig_exits_early_witness :
    mainRun (some argsDefault) envAllUnset true true true true
      = [⟨preTrace argsDefault envAllUnset ++ [Ev.logError], Outcome.exited 1⟩] :=
  (missing_sig_exits_early argsDefault envAllUnset true true true true rfl rfl).1

/-- Claim C3: a fork failure is fatal with exit 1 and no further side effects:
first-fork failure produces a single image that did nothing but the fork call
(no restore, no setsid, no signal change, no umask, no state init);
second-fork failure makes the attempting image exit 1 with no event after its
fork call. -/
theorem fork_failure_fatal (a : ParsedArgs) (e : Env) (ss f2 i0 : Bool)
    (hh : a.help = false) (hm : hisBad e = false) (hnf : a.noFork = false) :
    (mainRun (some a) e false ss f2 i0
        = [⟨preTrace a e ++ [Ev.forkCall], Outcome.exited 1⟩] ∧
      (∀ s, Ev.restoreEnv s ∉ preTrace a e) ∧
      Ev.setsidCall ∉ preTrace a e ∧ Ev.sighupIgnore ∉ preTrace a e ∧
      Ev.umaskZero ∉ preTrace a e ∧ Ev.stateInit ∉ preTrace a e) ∧
    mainRun (some a) e true true false i0
        = [⟨preTrace a e ++ [Ev.forkCall], Outcome.exited 0⟩,
           ⟨preTrace a e ++ [Ev.forkCall, Ev.restoreEnv (captureEnvVars e),
              Ev.setsidCall, Ev.sighupIgnore, Ev.forkCall], Outcome.exited 1⟩] := by
  refine ⟨⟨by simp [mainRun, hh, hm, hnf, forkoffImages], ?_, ?_, ?_, ?_, ?_⟩,
    by simp [mainRun, hh, hm, hnf, forkoffImages]⟩ <;>
    cases hv : a.verbose <;> cases hd : a.dryRun <;> simp [preTrace, hv, hd]

/-- Witness for C3 with a valid signature and default flags. -/
theorem fork_failure_fatal_witness :
    mainRun (some argsDefault) envWithSig false true true true
      = [⟨preTrace argsDefault envWithSig ++ [Ev.forkCall], Outcome.exited 1⟩] :=
  (fork_failure_fatal argsDefault envWithSig true true true rfl rfl rfl).1.1

/-- Shape of the post-fork tail: state init happens first, and nothing in the
tail after it is a fork call. -/
theorem afterFork_shape (t : List Ev) (a : ParsedArgs) (st : AppState) (i0 : Bool) :
    ∃ tl o, afterFork t a st i0 = ⟨t ++ Ev.stateInit :: tl, o⟩ ∧
      Ev.forkCall ∉ tl := by
  unfold afterFork
  cases i0 with
  | false => exact ⟨[Ev.logError], Outcome.exited 1, by simp, by simp⟩
  | true =>
    cases hvt : a.vt with
    | none =>
      exact ⟨[Ev.configureUI (a.noExit || st.m_dryRun)
          (a.topLabel.getD "Shutting down...") a.postCmd, Ev.runUI],
        Outcome.exited 0, by simp [hvt], by simp⟩
    | some n =>
      by_cases hc : 0 < n ∧ st.m_dryRun = false
      · exact ⟨[Ev.configureUI (a.noExit || st.m_dryRun)
            (a.topLabel.getD "Shutting down...") a.postCmd, Ev.runUI,
            Ev.launchAsync "/bin/sh" ["-c", vtCommand n]],
          Outcome.exited 0, by simp [hvt, hc], by simp⟩
      · exact ⟨[Ev.configureUI (a.noExit || st.m_dryRun)
            (a.topLabel.getD "Shutting down...") a.postCmd, Ev.runUI],
          Outcome.exited 0, by simp [hvt, hc], by simp⟩

/-- Claim C8: with --no-fork set (signature present, help not given), main
produces a single image — the original process — whose trace contains no fork
call, sets the SIGHUP disposition to ignore, and then goes directly to
shared-state initialization. -/
theorem nofork_path (a : ParsedArgs) (e : Env) (f1 ss f2 i0 : Bool)
    (hh : a.help = false) (hm : hisBad e = false) (hnf : a.noFork = true) :
    ∃ tl o,
      mainRun (some a) e f1 ss f2 i0
        = [⟨preTrace a e ++ Ev.sighupIgnore :: Ev.stateInit :: tl, o⟩] ∧
      Ev.forkCall ∉ preTrace a e ∧ Ev.forkCall ∉ tl := by
  obtain ⟨tl, o, hshape, hfk⟩ :=
    afterFork_shape (preTrace a e ++ [Ev.sighupIgnore]) a
      (if a.dryRun then ⟨true⟩ else ⟨false⟩) i0
  refine ⟨tl, o, ?_, ?_, hfk⟩
  · simp only [mainRun, hh, Bool.false_eq_true, if_false, hm, hnf, if_true, hshape,
      List.append_assoc, List.cons_append, List.nil_append]
  · cases hv : a.verbose <;> cases hd : a.dryRun <;> simp [preTrace, hv, hd]

/-- Witness for C8 at a concrete --no-fork invocation. -/
theorem nofork_path_witness :
    ∃ tl o,
      mainRun (some { argsDefault with noFork := true }) envWithSig true true true true
        = [⟨preTrace { argsDefault with noFork := true } envWithSig ++
            Ev.sighupIgnore :: Ev.stateInit :: tl, o⟩] ∧
      Ev.forkCall ∉ preTrace { argsDefault with noFork := true } envWithSig ∧
      Ev.forkCall ∉ tl := by
  obtain ⟨tl, o, h1, h2, h3⟩ :=
    nofork_path { argsDefault with noFork := true } envWithSig true true true true
      rfl rfl rfl
  exact ⟨tl, o, h1, h2, h3⟩

/-- Claim C5: with a positive VT number and dry-run inactive (signature
present, help not given, all system calls succeeding), the image that runs
the UI ends its trace with the UI run immediately followed by one
asynchronous launch of "/bin/sh" "-c" "sudo -n chvt N", exits 0, the whole
run launches exactly one subprocess and never waits on one; with no VT number
or a non-positive one, no subprocess is ever launched. -/
theorem vt_switch_after_ui (a : ParsedArgs) (e : Env) (n : Int) (f1 ss f2 i0 : Bool)
    (hh : a.help = false) (hm : hisBad e = false) (hd : a.dryRun = false) :
    (a.vt = some n → 0 < n →
      (lastImg (mainRun (some a) e true true true true)).outcome = Outcome.exited 0 ∧
      (lastImg (mainRun (some a) e true true true true)).trace.reverse.take 2
        = [Ev.launchAsync "/bin/sh" ["-c", vtCommand n], Ev.runUI] ∧
      launchCount (mainRun (some a) e true true true true) = 1 ∧
      (∀ i ∈ mainRun (some a) e true true true true, Ev.waitChild ∉ i.trace)) ∧
    (a.vt = none → launchCount (mainRun (some a) e f1 ss f2 i0) = 0) ∧
    (a.vt = some n → n ≤ 0 → launchCount (mainRun (some a) e f1 ss f2 i0) = 0) := by
  refine ⟨?_, ?_, ?_⟩
  · intro hvt hn
    cases hnf : a.noFork <;> cases hv : a.verbose <;>
      simp [mainRun, forkoffImages, afterFork, preTrace, lastImg, launchCount,
        isLaunch, hh, hm, hd, hnf, hv, hvt, hn]
  · intro hvt
    cases f1 <;> cases ss <;> cases f2 <;> cases i0 <;>
      cases hnf : a.noFork <;> cases hv : a.verbose <;>
      simp [mainRun, forkoffImages, afterFork, preTrace, launchCount,
        isLaunch, hh, hm, hd, hnf, hv, hvt]
  · intro hvt hn
    have hn' : ¬ (0 < n) := not_lt.mpr hn
    cases f1 <;> cases ss <;> cases f2 <;> cases i0 <;>
      cases hnf : a.noFork <;> cases hv : a.verbose <;>
      simp [mainRun, forkoffImages, afterFork, preTrace, launchCount,
        isLaunch, hh, hm, hd, hnf, hv, hvt, hn']

/-- Witness for C5 at --vt 3 with a valid signature: exactly one subprocess
launch. -/
theorem vt_switch_after_ui_witness :
    launchCount (mainRun (some { argsDefault with vt := some 3 }) envWithSig
      true true true true) = 1 :=
  ((vt_switch_after_ui { argsDefault with vt := some 3 } envWithSig 3
      true true true true rfl rfl rfl).1 rfl (by decide)).2.2.1

/-- Under a dry state, the post-fork tail launches nothing: its trace filters
to the same launches as the accumulated trace. -/
theorem afterFork_dry_launchFilter (t : List Ev) (a : ParsedArgs) (i0 : Bool) :
    (afterFork t a ⟨true⟩ i0).trace.filter isLaunch = t.filter isLaunch := by
  unfold afterFork
  cases i0 <;> cases hvt : a.vt <;>
    simp [hvt, isLaunch, List.filter_append]

/-- Under a dry state, any UI configuration event in the post-fork tail either
came from the accumulated trace or carries no-exit = true. -/
theorem afterFork_dry_noExit (t : List Ev) (a : ParsedArgs) (i0 : Bool)
    (ne : Bool) (l : String) (p : Option String)
    (h : Ev.configureUI ne l p ∈ (afterFork t a ⟨true⟩ i0).trace) :
    Ev.configureUI ne l p ∈ t ∨ ne = true := by
  unfold afterFork at h
  cases i0 <;> cases hvt : a.vt <;> simp [hvt] at h <;> tauto

/-- No event of the pre-fork prefix is a launch. -/
theorem preTrace_no_launch (a : ParsedArgs) (e : Env) :
    (preTrace a e).filter isLaunch = [] := by
  cases hv : a.verbose <;> cases hdd : a.dryRun <;>
    simp [preTrace, hv, hdd, isLaunch]

/-- No event of the pre-fork prefix is a UI configuration. -/
theorem preTrace_no_configUI (a : ParsedArgs) (e : Env)
    (ne : Bool) (l : String) (p : Option String) :
    Ev.configureUI ne l p ∉ preTrace a e := by
  cases hv : a.verbose <;> cases hdd : a.dryRun <;>
    simp [preTrace, hv, hdd]

/-- Claim C6: with --dry-run set, no subprocess is ever launched whatever the
--vt value and other inputs, and whenever the UI is configured its no-exit
flag is true even if --no-exit was not given. -/
theorem dry_run_forces (a : ParsedArgs) (e : Env) (f1 ss f2 i0 : Bool)
    (hd : a.dryRun = true) :
    launchCount (mainRun (some a) e f1 ss f2 i0) = 0 ∧
    ∀ i ∈ mainRun (some a) e f1 ss f2 i0, ∀ ne l p,
      Ev.configureUI ne l p ∈ i.trace → ne = true := by
  cases hh : a.help
  case true =>
    constructor
    · simp [mainRun, hh, launchCount, isLaunch]
    · simp [mainRun, hh]
  case false =>
  cases hB : hisBad e
  case true =>
    constructor
    · simp [mainRun, hh, hB, launchCount, List.filter_append,
        preTrace_no_launch, isLaunch]
    · simp [mainRun, hh, hB, preTrace_no_configUI]
  case false =>
  cases hnf : a.noFork
  case true =>
    have hrun : mainRun (some a) e f1 ss f2 i0
        = [afterFork (preTrace a e ++ [Ev.sighupIgnore]) a ⟨true⟩ i0] := by
      simp [mainRun, hh, hB, hnf, hd]
    rw [hrun]
    constructor
    · simp [launchCount, afterFork_dry_launchFilter, List.filter_append,
        preTrace_no_launch, isLaunch]
    · intro i hi ne l p hmem
      simp only [List.mem_singleton] at hi
      subst hi
      rcases afterFork_dry_noExit _ a i0 ne l p hmem with hin | hne
      · exact absurd hin (by simp [preTrace_no_configUI])
      · exact hne
  case false =>
  cases f1
  case false =>
    constructor
    · simp [mainRun, hh, hB, hnf, forkoffImages, launchCount,
        List.filter_append, preTrace_no_launch, isLaunch]
    · simp [mainRun, hh, hB, hnf, forkoffImages, preTrace_no_configUI]
  case true =>
  cases ss
  case false =>
    constructor
    · simp [mainRun, hh, hB, hnf, forkoffImages, launchCount,
        List.filter_append, preTrace_no_launch, isLaunch]
    · simp [mainRun, hh, hB, hnf, forkoffImages, preTrace_no_configUI]
  case true =>
  cases f2
  case false =>
    constructor
    · simp [mainRun, hh, hB, hnf, forkoffImages, launchCount,
        List.filter_append, preTrace_no_launch, isLaunch]
    · simp [mainRun, hh, hB, hnf, forkoffImages, preTrace_no_configUI]
  case true =>
  have hrun : mainRun (some a) e true true true i0
      = [⟨preTrace a e ++ [Ev.forkCall], Outcome.exited 0⟩,
         ⟨preTrace a e ++ [Ev.forkCall, Ev.restoreEnv (captureEnvVars e),
            Ev.setsidCall, Ev.sighupIgnore, Ev.forkCall], Outcome.exited 0⟩,
         afterFork (preTrace a e ++ [Ev.forkCall, Ev.restoreEnv (captureEnvVars e),
            Ev.setsidCall, Ev.sighupIgnore, Ev.forkCall,
            Ev.restoreEnv (captureEnvVars e), Ev.umaskZero]) a ⟨true⟩ i0] := by
    simp [mainRun, hh, hB, hnf, hd, forkoffImages]
  rw [hrun]
  constructor
  · simp [launchCount, afterFork_dry_launchFilter, List.filter_append,
      preTrace_no_launch, isLaunch]
  · intro i hi ne l p hmem
    simp only [List.mem_cons, List.mem_singleton, List.not_mem_nil, or_false] at hi
    rcases hi with hi | hi | hi <;> subst hi
    · exact absurd hmem (by simp [preTrace_no_configUI])
    · exact absurd hmem (by simp [preTrace_no_configUI])
    · rcases afterFork_dry_noExit _ a i0 ne l p hmem with hin | hne
      · exact absurd hin (by simp [preTrace_no_configUI])
      · exact hne

/-- Witness for C6 at a concrete dry-run invocation with --vt 3: no launch
happens. -/
theorem dry_run_forces_witness :
    launchCount (mainRun (some { argsDefault with dryRun := true, vt := some 3 })
      envWithSig true true true true) = 0 :=
  (dry_run_forces { argsDefault with dryRun := true, vt := some 3 } envWithSig
    true true true true rfl).1

end Hyprshutdown
